import Mathlib

/-!
Verification development for a real-time direct-messaging web client
(ChatVibe). The client encrypts message content with a fixed shared key
before inserting it into a backend table, subscribes to row-insert
notifications, maintains a typing indicator, and tracks presence status.

The embedding below follows the source files:
  - the encryption helper (encryptMessage / decryptMessage over a
    third-party AES wrapper with a hardcoded key),
  - the ChatWindow component (fetchMessages, sendMessage, the insert
    subscription callback, updateTypingStatus, handleInputChange),
  - the ChatLayout component (updateUserStatus and its call sites),
  - the SettingsModal component (profile save).

The third-party cipher library is external to the repository, so it is
modelled as an abstract pair of functions returning Option String: the
value none stands for a thrown exception, some s for a normal return of
the string s. Component state updates are modelled as pure state-passing
functions; backend tables are lists of rows.
-/

namespace ChatVibe

/-- Hardcoded process-wide symmetric key from the encryption helper. -/
def ENCRYPTION_KEY : String := "chatvibe-e2e-encryption-key-2024"

/-- Abstract interface of the external cipher library. The field
aesEncrypt models CryptoJS.AES.encrypt(message, key).toString() and
aesDecryptUtf8 models CryptoJS.AES.decrypt(ct, key).toString(Utf8);
a result of none models a thrown exception. -/
structure Cipher where
  aesEncrypt : String → String → Option String
  aesDecryptUtf8 : String → String → Option String

/-- Embedding of encryptMessage: calls the cipher with the fixed key and
returns the ciphertext; on an exception it logs and returns the message
unchanged (fallback to unencrypted). -/
def encryptMessage (c : Cipher) (message : String) : String :=
  match c.aesEncrypt message ENCRYPTION_KEY with
  | some encrypted => encrypted
  | none => message

/-- Embedding of decryptMessage: calls the cipher with the fixed key.
The source returns decrypted with a JavaScript falsy fallback to the
input, so an empty decryption result yields the input ciphertext; on an
exception it returns the input unchanged. -/
def decryptMessage (c : Cipher) (encryptedMessage : String) : String :=
  match c.aesDecryptUtf8 encryptedMessage ENCRYPTION_KEY with
  | some decrypted => if decrypted = "" then encryptedMessage else decrypted
  | none => encryptedMessage

/-- Concrete cipher instance used for witnesses and counterexamples: it
never throws, prepends a marker character as its encryption, and inverts
that on decryption. Like the real AES wrapper it round-trips every
plaintext and produces a non-empty ciphertext for the empty plaintext. -/
def toyCipher : Cipher where
  aesEncrypt m _ := some ("!" ++ m)
  aesDecryptUtf8 ct _ :=
    match ct.data with
    | '!' :: rest => some (String.mk rest)
    | _ => none

/-- Concrete cipher instance whose calls always throw; used to witness
the exception-fallback paths. -/
def failCipher : Cipher where
  aesEncrypt _ _ := none
  aesDecryptUtf8 _ _ := none

/-- Embedding of the JavaScript String.prototype.trim call used by
sendMessage: removes whitespace from both ends of the string. -/
def jsTrim (s : String) : String :=
  String.mk (((s.data.dropWhile Char.isWhitespace).reverse.dropWhile
    Char.isWhitespace).reverse)

/-- Row shape of the direct_messages table as the ChatWindow component
reads it: id, sender id, receiver id, ciphertext content, creation
timestamp (modelled as a natural number). -/
structure Message where
  id : String
  sender_id : String
  receiver_id : String
  content : String
  created_at : Nat
deriving DecidableEq

/-- Values the client supplies in the sendMessage insert call; id and
created_at are assigned by the backend, not the client. -/
structure InsertRow where
  sender_id : String
  receiver_id : String
  content : String
deriving DecidableEq

/-- Component state of ChatWindow that sendMessage can touch: the
messages list, the controlled input value newMessage, and the loading
flag. -/
structure ChatState where
  messages : List Message
  newMessage : String
  loading : Bool
deriving DecidableEq

/-- Result of one run of sendMessage: the component state afterwards,
the insert request issued to the backend (none when no insert call was
made), and whether the failure toast was shown. -/
structure SendResult where
  state : ChatState
  insertReq : Option InsertRow
  errorToast : Bool
deriving DecidableEq

/-- Embedding of sendMessage. The source returns immediately when the
trimmed input is falsy (empty); otherwise it sets loading, encrypts the
trimmed input, inserts sender id, receiver id and the encrypted content,
clears the input on success, shows an error toast on an insert error,
and resets loading in a finally block. The parameter insertOk models
whether the backend accepted the insert. -/
def sendMessage (c : Cipher) (currentUserId selectedUserId : String)
    (st : ChatState) (insertOk : Bool) : SendResult :=
  if jsTrim st.newMessage = "" then
    { state := st, insertReq := none, errorToast := false }
  else
    let encryptedContent := encryptMessage c (jsTrim st.newMessage)
    let row : InsertRow :=
      { sender_id := currentUserId, receiver_id := selectedUserId
        content := encryptedContent }
    if insertOk then
      { state := { st with newMessage := "", loading := false }
        insertReq := some row, errorToast := false }
    else
      { state := { st with loading := false }
        insertReq := some row, errorToast := true }

/-- Embedding of the ChatWindow insert-subscription callback: the state
updater looks for an existing message with the incoming id and returns
the previous list unchanged if found, else appends the new message. -/
def messageSubscriptionCallback (prev : List Message) (m : Message) :
    List Message :=
  match prev.find? (fun msg => msg.id == m.id) with
  | some _ => prev
  | none => prev ++ [m]

/-- Pending setTimeout closure scheduled by handleInputChange: it
captures the argument value of the call and the value the newMessage
state variable had in the render that defined the handler (the value
from before the change, since setNewMessage does not mutate the
closed-over constant). -/
structure PendingTimeout where
  value : String
  capturedNewMessage : String
deriving DecidableEq

/-- Typing-indicator slice of the ChatWindow state: the controlled
input value, the is_typing flag last upserted to the typing_status
table, and the list of scheduled, not yet fired timeouts. -/
structure TypingState where
  newMessage : String
  typingFlag : Bool
  timeouts : List PendingTimeout
deriving DecidableEq

/-- Embedding of handleInputChange: sets newMessage to the new value,
upserts is_typing as value.length greater than zero, and schedules a
3-second timeout whose closure captures the new value together with the
stale newMessage of the current render; no earlier timeout is
cancelled. -/
def handleInputChange (s : TypingState) (value : String) : TypingState :=
  { newMessage := value
    typingFlag := decide (0 < value.length)
    timeouts := s.timeouts ++ [{ value := value, capturedNewMessage := s.newMessage }] }

/-- Embedding of one scheduled timeout firing: the closure compares its
captured argument against the captured (stale) newMessage and upserts
is_typing false only when they are equal. -/
def fireTimeout (s : TypingState) (t : PendingTimeout) : TypingState :=
  if t.value = t.capturedNewMessage then { s with typingFlag := false } else s

/-- Row shape of the typing_status table as upserted by
updateTypingStatus. -/
structure TypingRow where
  user_id : String
  conversation_with : String
  is_typing : Bool
deriving DecidableEq

/-- Row shape of the profiles table as the client reads and updates
it; last_seen is modelled as a natural-number timestamp. -/
structure ProfileRow where
  id : String
  user_id : String
  username : String
  display_name : String
  bio : String
  status : String
  last_seen : Nat
deriving DecidableEq

/-- Backend tables the client reads or writes. -/
structure Backend where
  direct_messages : List Message
  typing_status : List TypingRow
  profiles : List ProfileRow
deriving DecidableEq

/-- Events on which ChatLayout calls updateUserStatus: component mount,
the beforeunload handler, the visibilitychange handler in its hidden and
visible branches, and the effect cleanup. -/
inductive PresenceEvent where
  | mount
  | beforeUnload
  | visibilityHidden
  | visibilityVisible
  | teardown
deriving DecidableEq

/-- Status string ChatLayout passes to updateUserStatus at each call
site. -/
def presenceStatus : PresenceEvent → String
  | .mount => "online"
  | .beforeUnload => "offline"
  | .visibilityHidden => "away"
  | .visibilityVisible => "online"
  | .teardown => "offline"

/-- Semantics of the upsert call in updateTypingStatus on the
typing_status table, keyed by user_id and conversation_with: replace
the matching row when present, else append. -/
def upsertTyping (rows : List TypingRow) (r : TypingRow) : List TypingRow :=
  if rows.any (fun x => x.user_id == r.user_id && x.conversation_with == r.conversation_with) then
    rows.map (fun x =>
      if x.user_id == r.user_id && x.conversation_with == r.conversation_with then r else x)
  else rows ++ [r]

/-- Every call the client issues that can touch a backend table. The
call sites are: fetchMessages and the ChatSidebar profile fetch
(reads), the sendMessage insert, the updateTypingStatus upsert, the
updateUserStatus profiles update triggered by a presence event, and the
SettingsModal profile save updating display_name and bio. -/
inductive ClientAction where
  | fetchMessagesCall (uid pid : String) (fail : Bool)
  | fetchProfilesCall (uid : String)
  | sendMessageCall (uid pid : String) (st : ChatState) (insertOk : Bool)
  | typingUpsertCall (uid pid : String) (typing : Bool)
  | statusUpdateCall (e : PresenceEvent) (uid : String)
  | saveProfileCall (uid name biography : String)

/-- Effect of one client call on the backend tables. A successful
sendMessage insert appends one direct_messages row whose id and
created_at the backend assigns (freshId, now); the typing upsert
rewrites typing_status; updateUserStatus updates status and last_seen
of the matching profiles rows; the profile save updates display_name
and bio; reads leave every table unchanged. -/
def applyAction (c : Cipher) (b : Backend) (a : ClientAction)
    (freshId : String) (now : Nat) : Backend :=
  match a with
  | .fetchMessagesCall _ _ _ => b
  | .fetchProfilesCall _ => b
  | .sendMessageCall uid pid st insertOk =>
    match (sendMessage c uid pid st insertOk).insertReq, insertOk with
    | some row, true =>
      { b with direct_messages := b.direct_messages ++
          [{ id := freshId, sender_id := row.sender_id
             receiver_id := row.receiver_id, content := row.content
             created_at := now }] }
    | _, _ => b
  | .typingUpsertCall uid pid typing =>
    let r : TypingRow := { user_id := uid, conversation_with := pid, is_typing := typing }
    { b with typing_status := upsertTyping b.typing_status r }
  | .statusUpdateCall e uid =>
    { b with profiles := b.profiles.map (fun p =>
        if p.user_id == uid then
          { p with status := presenceStatus e, last_seen := now } else p) }
  | .saveProfileCall uid name biography =>
    { b with profiles := b.profiles.map (fun p =>
        if p.user_id == uid then
          { p with display_name := name, bio := biography } else p) }

/-- Rendering of one message bubble: the displayed text is
decryptMessage applied to the stored content; the stored row itself is
not modified. -/
def renderMessageText (c : Cipher) (m : Message) : String :=
  decryptMessage c m.content

/-- Ordering used by the fetchMessages query: ascending created_at. -/
def byCreatedAt (a b : Message) : Prop := a.created_at ≤ b.created_at

instance : DecidableRel byCreatedAt := fun a b => Nat.decLe a.created_at b.created_at

instance : IsTotal Message byCreatedAt := ⟨fun a b => Nat.le_total a.created_at b.created_at⟩

instance : IsTrans Message byCreatedAt := ⟨fun _ _ _ h h2 => Nat.le_trans h h2⟩

/-- Result set of the fetchMessages query: rows of the conversation in
either direction, ordered by created_at ascending as the query
requests. -/
def queryDirectMessages (table : List Message) (uid pid : String) : List Message :=
  List.insertionSort byCreatedAt (table.filter (fun m =>
    (m.sender_id == uid && m.receiver_id == pid) ||
    (m.sender_id == pid && m.receiver_id == uid)))

/-- Embedding of fetchMessages: on success it replaces the messages
state with the query result and shows no toast; on an error it changes
no state and shows the failure toast. The Boolean result records
whether the toast was shown. -/
def fetchMessages (table : List Message) (uid pid : String) (fail : Bool)
    (st : ChatState) : ChatState × Bool :=
  if fail then (st, true)
  else ({ st with messages := queryDirectMessages table uid pid }, false)

/-- Sample message rows used by witnesses. -/
def msgA : Message :=
  { id := "m1", sender_id := "u", receiver_id := "p", content := "!hi", created_at := 1 }

/-- Second sample message row with a distinct id. -/
def msgB : Message :=
  { id := "m2", sender_id := "p", receiver_id := "u", content := "!yo", created_at := 2 }

/-- Sample ChatWindow state with a non-blank input. -/
def sampleSendState : ChatState :=
  { messages := [], newMessage := " hello ", loading := false }

/-- Sample ChatWindow state whose input is all whitespace. -/
def sampleBlankState : ChatState :=
  { messages := [], newMessage := "   ", loading := false }

/-- Sample insert row produced by sendMessage under failCipher. -/
def sampleRow : InsertRow :=
  { sender_id := "u", receiver_id := "p", content := "hello" }

/-- Sample profile row used by witnesses. -/
def sampleProfile : ProfileRow :=
  { id := "p1", user_id := "u", username := "alice", display_name := "Alice"
    bio := "", status := "offline", last_seen := 0 }

/-- Sample backend contents used by witnesses. -/
def sampleBackend : Backend :=
  { direct_messages := [msgA], typing_status := [], profiles := [sampleProfile] }

/-- C1 counterexample: under a faithful cipher instance (round-tripping,
never throwing, non-empty ciphertext for the empty plaintext, exactly as
the AES wrapper behaves) the round trip of the empty string returns the
ciphertext rather than the empty string, because the source falls back
to the input whenever the decrypted string is empty, hence falsy. -/
theorem c1_roundtrip_fails_on_empty_string :
    decryptMessage toyCipher (encryptMessage toyCipher "") ≠ "" := by decide

/-- C1 (amended): for every non-empty input string s, if the cipher
encrypts s under the fixed key to some ciphertext and decrypts that
ciphertext back to s (as the AES wrapper does), then
decryptMessage(encryptMessage(s)) = s. -/
theorem c1_encrypt_decrypt_roundtrip (c : Cipher) (s ct : String)
    (henc : c.aesEncrypt s ENCRYPTION_KEY = some ct)
    (hdec : c.aesDecryptUtf8 ct ENCRYPTION_KEY = some s)
    (hne : s ≠ "") :
    decryptMessage c (encryptMessage c s) = s := by
  unfold encryptMessage
  rw [henc]
  unfold decryptMessage
  rw [hdec]
  simp [hne]

/-- C1 witness: the amended round trip at the concrete non-empty input
"hi" under the concrete cipher instance. -/
theorem c1_encrypt_decrypt_roundtrip_witness :
    decryptMessage toyCipher (encryptMessage toyCipher "hi") = "hi" :=
  c1_encrypt_decrypt_roundtrip toyCipher "hi" "!hi" (by decide) (by decide) (by decide)

/-- C3: when the cipher call inside encryptMessage or decryptMessage
throws (modelled as returning none), the function swallows the
exception and returns its input argument unchanged; both functions are
total, so no exception escapes. -/
theorem c3_crypto_errors_return_input (c : Cipher) (m e : String)
    (hE : c.aesEncrypt m ENCRYPTION_KEY = none)
    (hD : c.aesDecryptUtf8 e ENCRYPTION_KEY = none) :
    encryptMessage c m = m ∧ decryptMessage c e = e := by
  unfold encryptMessage decryptMessage
  rw [hE, hD]
  exact ⟨rfl, rfl⟩

/-- C3 witness: both fallbacks at concrete inputs under the
always-throwing cipher instance. -/
theorem c3_crypto_errors_return_input_witness :
    encryptMessage failCipher "abc" = "abc" ∧ decryptMessage failCipher "xyz" = "xyz" :=
  c3_crypto_errors_return_input failCipher "abc" "xyz" rfl rfl

/-- C9: decryptMessage never returns the empty string on a non-empty
argument, and whenever the underlying decryption yields the empty
string the function returns its input ciphertext instead. -/
theorem c9_decrypt_never_empty_on_nonempty (c : Cipher) (ct : String)
    (h : ct ≠ "") :
    decryptMessage c ct ≠ "" ∧
    (c.aesDecryptUtf8 ct ENCRYPTION_KEY = some "" → decryptMessage c ct = ct) := by
  unfold decryptMessage
  constructor
  · cases hd : c.aesDecryptUtf8 ct ENCRYPTION_KEY with
    | none => simpa using h
    | some d =>
      by_cases hd0 : d = "" <;> simp [hd0, h]
  · intro hsome
    rw [hsome]
    simp

/-- C9 witness: the ciphertext of the empty plaintext under the
concrete cipher instance is the string "!", and decrypting it returns
"!" itself rather than the empty string. -/
theorem c9_decrypt_never_empty_on_nonempty_witness :
    encryptMessage toyCipher "" = "!" ∧
    (decryptMessage toyCipher "!" ≠ "" ∧
     (toyCipher.aesDecryptUtf8 "!" ENCRYPTION_KEY = some "" →
       decryptMessage toyCipher "!" = "!")) :=
  ⟨by decide, c9_decrypt_never_empty_on_nonempty toyCipher "!" (by decide)⟩

/-- C2: whenever sendMessage issues an insert, the content field is
encryptMessage of the trimmed input under the shared key; when the
cipher call throws, that content is the trimmed plaintext itself; and
the error toast depends only on the insert outcome, never on the
encryption outcome, so an encryption failure surfaces no error. -/
theorem c2_persisted_content_is_ciphertext (c : Cipher)
    (uid pid : String) (st : ChatState) (insertOk : Bool) (row : InsertRow)
    (h : (sendMessage c uid pid st insertOk).insertReq = some row) :
    row.content = encryptMessage c (jsTrim st.newMessage) ∧
    (c.aesEncrypt (jsTrim st.newMessage) ENCRYPTION_KEY = none →
      row.content = jsTrim st.newMessage) ∧
    (sendMessage c uid pid st insertOk).errorToast = !insertOk := by
  unfold sendMessage at h ⊢
  by_cases ht : jsTrim st.newMessage = ""
  · simp [ht] at h
  · cases insertOk with
    | true =>
      simp only [ht, if_false, if_true, reduceIte] at h ⊢
      cases h
      refine ⟨rfl, ?_, rfl⟩
      intro hE
      unfold encryptMessage
      rw [hE]
    | false =>
      simp only [ht, if_false, reduceIte] at h ⊢
      cases h
      refine ⟨rfl, ?_, rfl⟩
      intro hE
      unfold encryptMessage
      rw [hE]

/-- C2 witness: under the always-throwing cipher and a successful
insert, the persisted content is the trimmed plaintext and no error
toast is shown. -/
theorem c2_persisted_content_is_ciphertext_witness :
    sampleRow.content = encryptMessage failCipher (jsTrim sampleSendState.newMessage) ∧
    sampleRow.content = jsTrim sampleSendState.newMessage ∧
    (sendMessage failCipher "u" "p" sampleSendState true).errorToast = false :=
  have h := c2_persisted_content_is_ciphertext failCipher "u" "p"
    sampleSendState true sampleRow (by decide)
  ⟨h.1, h.2.1 rfl, h.2.2⟩

/-- C8: when the input trims to the empty string, sendMessage returns
with no insert, no toast and the state untouched; otherwise it issues
exactly one insert carrying the encryption of the trimmed input, leaves
the messages list unchanged, clears the input exactly on insert
success. -/
theorem c8_send_empty_input_no_effect (c : Cipher)
    (uid pid : String) (st : ChatState) (insertOk : Bool) :
    (jsTrim st.newMessage = "" →
      sendMessage c uid pid st insertOk =
        { state := st, insertReq := none, errorToast := false }) ∧
    (jsTrim st.newMessage ≠ "" →
      (sendMessage c uid pid st insertOk).insertReq =
        some { sender_id := uid, receiver_id := pid
               content := encryptMessage c (jsTrim st.newMessage) } ∧
      (sendMessage c uid pid st insertOk).state.messages = st.messages ∧
      (insertOk = true → (sendMessage c uid pid st insertOk).state.newMessage = "") ∧
      (insertOk = false →
        (sendMessage c uid pid st insertOk).state.newMessage = st.newMessage)) := by
  constructor
  · intro ht
    unfold sendMessage
    simp [ht]
  · intro ht
    unfold sendMessage
    cases insertOk <;> simp [ht]

/-- C8 witness: the all-whitespace input leaves everything untouched,
and a successful send of a non-blank input clears the input field. -/
theorem c8_send_empty_input_no_effect_witness :
    sendMessage toyCipher "u" "p" sampleBlankState true =
      { state := sampleBlankState, insertReq := none, errorToast := false } ∧
    (sendMessage toyCipher "u" "p" sampleSendState true).state.newMessage = "" :=
  ⟨(c8_send_empty_input_no_effect toyCipher "u" "p" sampleBlankState true).1 (by decide),
   ((c8_send_empty_input_no_effect toyCipher "u" "p" sampleSendState true).2
     (by decide)).2.2.1 rfl⟩

/-- Helper: when some message in the list already has the incoming id,
the subscription callback leaves the list unchanged. -/
lemma callback_eq_of_mem (prev : List Message) (m : Message)
    (h : ∃ x ∈ prev, x.id = m.id) :
    messageSubscriptionCallback prev m = prev := by
  obtain ⟨x, hx, hid⟩ := h
  unfold messageSubscriptionCallback
  cases hfind : prev.find? (fun msg => msg.id == m.id) with
  | some _ => rfl
  | none =>
    exfalso
    have := List.find?_eq_none.mp hfind x hx
    simp [hid] at this

/-- Helper: when no message in the list has the incoming id, the
subscription callback appends the new message at the end. -/
lemma callback_eq_append_of_not_mem (prev : List Message) (m : Message)
    (h : ∀ x ∈ prev, x.id ≠ m.id) :
    messageSubscriptionCallback prev m = prev ++ [m] := by
  unfold messageSubscriptionCallback
  have hfind : prev.find? (fun msg => msg.id == m.id) = none := by
    rw [List.find?_eq_none]
    intro x hx
    simpa using h x hx
  rw [hfind]

/-- Helper: one subscription callback step preserves distinctness of
the ids in the list. -/
lemma callback_nodup_step (prev : List Message) (m : Message)
    (h : (prev.map Message.id).Nodup) :
    ((messageSubscriptionCallback prev m).map Message.id).Nodup := by
  unfold messageSubscriptionCallback
  cases hfind : prev.find? (fun msg => msg.id == m.id) with
  | some _ => exact h
  | none =>
    have hids : ∀ x ∈ prev, x.id ≠ m.id := by
      intro x hx
      have := List.find?_eq_none.mp hfind x hx
      simpa using this
    rw [List.map_append]
    refine List.Nodup.append h (List.nodup_singleton _) ?_
    intro a ha hb
    obtain ⟨x, hx, rfl⟩ := List.mem_map.mp ha
    have : x.id = m.id := by simpa using hb
    exact hids x hx this

/-- Helper: any sequence of subscription callback steps preserves
distinctness of the ids in the list. -/
lemma foldl_callback_nodup (ms : List Message) (prev : List Message)
    (h : (prev.map Message.id).Nodup) :
    ((ms.foldl messageSubscriptionCallback prev).map Message.id).Nodup := by
  induction ms generalizing prev with
  | nil => simpa using h
  | cons m ms ih =>
    rw [List.foldl_cons]
    exact ih _ (callback_nodup_step prev m h)

/-- C4: the subscription callback leaves the list unchanged when a
message with the incoming id is already present, appends the new
message at the end otherwise, and consequently any sequence of insert
notifications preserves pairwise-distinct ids. -/
theorem c4_no_duplicate_ids :
    (∀ prev m, (∃ x ∈ prev, x.id = m.id) →
      messageSubscriptionCallback prev m = prev) ∧
    (∀ prev m, (∀ x ∈ prev, x.id ≠ m.id) →
      messageSubscriptionCallback prev m = prev ++ [m]) ∧
    (∀ prev ms, (prev.map Message.id).Nodup →
      ((List.foldl messageSubscriptionCallback prev ms).map Message.id).Nodup) :=
  ⟨callback_eq_of_mem, callback_eq_append_of_not_mem,
   fun prev ms h => foldl_callback_nodup ms prev h⟩

/-- C4 witness: a duplicate notification of msgA leaves the list
unchanged, a fresh notification of msgB appends it, and replayed
duplicate notifications keep the ids distinct. -/
theorem c4_no_duplicate_ids_witness :
    messageSubscriptionCallback [msgA] msgA = [msgA] ∧
    messageSubscriptionCallback [msgA] msgB = [msgA, msgB] ∧
    ((List.foldl messageSubscriptionCallback [msgA] [msgB, msgB, msgA]).map
      Message.id).Nodup :=
  ⟨c4_no_duplicate_ids.1 [msgA] msgA ⟨msgA, by decide, rfl⟩,
   c4_no_duplicate_ids.2.1 [msgA] msgB (by decide),
   c4_no_duplicate_ids.2.2 [msgA] [msgB, msgB, msgA] (by decide)⟩

/-- Initial typing-indicator state: empty input, flag false, no
pending timeouts. -/
def initialTypingState : TypingState :=
  { newMessage := "", typingFlag := false, timeouts := [] }

/-- C5 failing run: one keystroke changes the input from the empty
string to "a"; handleInputChange upserts the flag true and schedules a
timeout, but the scheduled closure compares its argument "a" against
the stale captured newMessage "", so when it fires with no further
input the flag stays true instead of clearing to false. -/
theorem c5_timeout_never_clears_flag :
    (handleInputChange initialTypingState "a").typingFlag = true ∧
    (handleInputChange initialTypingState "a").timeouts =
      [{ value := "a", capturedNewMessage := "" }] ∧
    (fireTimeout (handleInputChange initialTypingState "a")
      { value := "a", capturedNewMessage := "" }).typingFlag = true := by
  decide

/-- C6: across every backend-touching call the client makes, the
direct_messages table only ever grows by appended rows (no update and
no delete is issued against it); the local subscription callback never
drops or rewrites an existing list entry; and the rendered bubble text
is decryptMessage of the stored content, computed at display time. -/
theorem c6_messages_insert_only :
    (∀ c b a freshId now,
      ∃ tl, (applyAction c b a freshId now).direct_messages =
        b.direct_messages ++ tl) ∧
    (∀ prev m x, x ∈ prev → x ∈ messageSubscriptionCallback prev m) ∧
    (∀ c m, renderMessageText c m = decryptMessage c m.content) := by
  refine ⟨?_, ?_, fun _ _ => rfl⟩
  · intro c b a freshId now
    cases a with
    | fetchMessagesCall uid pid fail => exact ⟨[], (List.append_nil _).symm⟩
    | fetchProfilesCall uid => exact ⟨[], (List.append_nil _).symm⟩
    | sendMessageCall uid pid st insertOk =>
      dsimp only [applyAction]
      split
      · exact ⟨_, rfl⟩
      · exact ⟨[], (List.append_nil _).symm⟩
    | typingUpsertCall uid pid typing => exact ⟨[], (List.append_nil _).symm⟩
    | statusUpdateCall e uid => exact ⟨[], (List.append_nil _).symm⟩
    | saveProfileCall uid name biography => exact ⟨[], (List.append_nil _).symm⟩
  · intro prev m x hx
    unfold messageSubscriptionCallback
    cases prev.find? (fun msg => msg.id == m.id) with
    | some _ => exact hx
    | none => exact List.mem_append_left _ hx

/-- C6 witness: a concrete successful send appends to the sample
backend table, and msgA survives the callback for msgB. -/
theorem c6_messages_insert_only_witness :
    (∃ tl, (applyAction toyCipher sampleBackend
        (ClientAction.sendMessageCall "u" "p" sampleSendState true) "m9" 7).direct_messages
      = sampleBackend.direct_messages ++ tl) ∧
    msgA ∈ messageSubscriptionCallback [msgA] msgB :=
  ⟨c6_messages_insert_only.1 toyCipher sampleBackend
     (ClientAction.sendMessageCall "u" "p" sampleSendState true) "m9" 7,
   c6_messages_insert_only.2.1 [msgA] msgB msgA (by decide)⟩

/-- C7: every status value the presence call sites pass is one of
online, away, offline; and every profiles row after any client call
either keeps its status and last_seen unchanged or carries one of those
presence status values together with last_seen set to the write
timestamp. -/
theorem c7_status_writes_restricted :
    (∀ e, presenceStatus e = "online" ∨ presenceStatus e = "away" ∨
      presenceStatus e = "offline") ∧
    (∀ c b a freshId now p',
      p' ∈ (applyAction c b a freshId now).profiles →
      ∃ p, p ∈ b.profiles ∧
        ((p'.status = p.status ∧ p'.last_seen = p.last_seen) ∨
         (∃ e, p'.status = presenceStatus e ∧ p'.last_seen = now))) := by
  constructor
  · intro e
    cases e <;> simp [presenceStatus]
  · intro c b a freshId now p' hp'
    cases a with
    | fetchMessagesCall uid pid fail => exact ⟨p', hp', Or.inl ⟨rfl, rfl⟩⟩
    | fetchProfilesCall uid => exact ⟨p', hp', Or.inl ⟨rfl, rfl⟩⟩
    | sendMessageCall uid pid st insertOk =>
      dsimp only [applyAction] at hp'
      split at hp'
      · exact ⟨p', hp', Or.inl ⟨rfl, rfl⟩⟩
      · exact ⟨p', hp', Or.inl ⟨rfl, rfl⟩⟩
    | typingUpsertCall uid pid typing => exact ⟨p', hp', Or.inl ⟨rfl, rfl⟩⟩
    | statusUpdateCall e uid =>
      dsimp only [applyAction] at hp'
      obtain ⟨p, hp, rfl⟩ := List.mem_map.mp hp'
      refine ⟨p, hp, ?_⟩
      by_cases huid : p.user_id == uid
      · rw [if_pos huid]
        exact Or.inr ⟨e, rfl, rfl⟩
      · rw [if_neg huid]
        exact Or.inl ⟨rfl, rfl⟩
    | saveProfileCall uid name biography =>
      dsimp only [applyAction] at hp'
      obtain ⟨p, hp, rfl⟩ := List.mem_map.mp hp'
      refine ⟨p, hp, Or.inl ?_⟩
      by_cases huid : p.user_id == uid
      · rw [if_pos huid]
        exact ⟨rfl, rfl⟩
      · rw [if_neg huid]
        exact ⟨rfl, rfl⟩

/-- C7 witness: the mount call site passes an allowed value, and the
concrete profile row after the mount status update carries status
online with last_seen set to the write time. -/
theorem c7_status_writes_restricted_witness :
    (presenceStatus PresenceEvent.mount = "online" ∨
     presenceStatus PresenceEvent.mount = "away" ∨
     presenceStatus PresenceEvent.mount = "offline") ∧
    (∃ p, p ∈ sampleBackend.profiles ∧
      ((({ id := "p1", user_id := "u", username := "alice", display_name := "Alice"
           bio := "", status := "online", last_seen := 5 } : ProfileRow).status = p.status ∧
        ({ id := "p1", user_id := "u", username := "alice", display_name := "Alice"
           bio := "", status := "online", last_seen := 5 } : ProfileRow).last_seen = p.last_seen) ∨
       (∃ e, ({ id := "p1", user_id := "u", username := "alice", display_name := "Alice"
                bio := "", status := "online", last_seen := 5 } : ProfileRow).status = presenceStatus e ∧
         ({ id := "p1", user_id := "u", username := "alice", display_name := "Alice"
            bio := "", status := "online", last_seen := 5 } : ProfileRow).last_seen = 5))) :=
  ⟨c7_status_writes_restricted.1 PresenceEvent.mount,
   c7_status_writes_restricted.2 toyCipher sampleBackend
     (ClientAction.statusUpdateCall PresenceEvent.mount "u") "x" 5
     ({ id := "p1", user_id := "u", username := "alice", display_name := "Alice"
        bio := "", status := "online", last_seen := 5 }) (by decide)⟩

/-- C10: a successful fetch replaces the messages state with the
conversation query result, which is sorted by created_at ascending, and
shows no toast; a failed fetch leaves the state unchanged and shows the
error toast. -/
theorem c10_fetch_sorted_ascending (table : List Message)
    (uid pid : String) (st : ChatState) :
    fetchMessages table uid pid false st =
      ({ st with messages := queryDirectMessages table uid pid }, false) ∧
    List.Sorted byCreatedAt (fetchMessages table uid pid false st).1.messages ∧
    fetchMessages table uid pid true st = (st, true) := by
  refine ⟨rfl, ?_, rfl⟩
  dsimp only [fetchMessages, queryDirectMessages, reduceIte]
  exact List.sorted_insertionSort byCreatedAt _

end ChatVibe
